import Mathlib

/-!
Shallow embedding of the line-based text mutation engine of
`src/main.go` (the `edit_file` tool: `EditFile`, `applyOperation`,
`applyInsert`, `applyDelete`, `applyReplace`, `applyAppend`).

Go strings are modelled as `List Char` (`Str`); Go's `strings.Split(s, "\n")`
and `strings.Join(lines, "\n")` become `splitNl` and `joinNl` below.
Operation `type` and location `position` fields are only ever compared for
equality in the source, so they are kept as Lean `String`s; document content,
lines and error messages are `Str`.  The on-disk file at the resolved path is
modelled as `Option Str` (`none` = the file does not exist).  Path resolution
and raw I/O failures are outside the engine and are not modelled.
-/

/-- A Go string, viewed as its sequence of characters. -/
abbrev Str := List Char

/-- `strings.Split(s, "\n")`: split around each newline, keeping empty
pieces; the empty string yields one empty piece. -/
def splitNl : Str → List Str
  | [] => [[]]
  | c :: rest =>
    match splitNl rest with
    | [] => [[]]
    | hd :: tl => if c = '\n' then [] :: hd :: tl else (c :: hd) :: tl

/-- `strings.Join(lines, "\n")`: concatenate with a single newline between
consecutive entries and nothing at the ends. -/
def joinNl : List Str → Str
  | [] => []
  | [l] => l
  | l :: l2 :: ls => l ++ '\n' :: joinNl (l2 :: ls)

/-- Decimal rendering of a Go `int`, as used by `fmt.Errorf` verbs `%d`. -/
def intStr (n : Int) : Str := (toString n).toList

/-- Decimal rendering of a Go `int` that is statically non-negative. -/
def natStr (n : Nat) : Str := (toString n).toList

/-- Go struct `LineRange` (src/main.go): 1-based inclusive endpoints. -/
structure LineRange where
  start : Int
  «end» : Int
deriving DecidableEq

/-- Go struct `LocationSpec` (src/main.go). -/
structure LocationSpec where
  lineNumber : Option Int
  lineRange : Option LineRange
  pattern : Option Str
  position : String
deriving DecidableEq

/-- Go struct `EditOperation` (src/main.go). -/
structure EditOperation where
  type : String
  location : LocationSpec
  content : Str
deriving DecidableEq

/-- `applyInsert` (src/main.go): handles insert operations. -/
def applyInsert (lines : List Str) (op : EditOperation) :
    Except Str (List Str) :=
  let insertLines := splitNl op.content
  match op.location.position with
  | "start" => .ok (insertLines ++ lines)
  | "end" => .ok (lines ++ insertLines)
  | "at" =>
    match op.location.lineNumber with
    | some lineNum =>
      if lineNum < 1 then
        .error ("line number must be >= 1").toList
      else if lineNum > (lines.length : Int) + 1 then
        .error (("line number ").toList ++ intStr lineNum ++
          (" is beyond end of file (").toList ++ natStr lines.length ++
          (" lines)").toList)
      else
        let insertPos := (lineNum - 1).toNat
        .ok (lines.take insertPos ++ insertLines ++ lines.drop insertPos)
    | none => .error ("line_number is required for 'at' position with insert").toList
  | pos =>
    if pos = "before" ∨ pos = "after" then
      match op.location.lineNumber with
      | some lineNum =>
        if lineNum < 1 ∨ lineNum > (lines.length : Int) then
          .error (("line number ").toList ++ intStr lineNum ++
            (" is out of range (1-").toList ++ natStr lines.length ++
            (")").toList)
        else
          let insertPos := (lineNum - 1).toNat + (if pos = "after" then 1 else 0)
          .ok (lines.take insertPos ++ insertLines ++ lines.drop insertPos)
      | none =>
        .error (("line_number is required for '").toList ++ pos.toList ++
          ("' position with insert").toList)
    else
      .error (("invalid position '").toList ++ pos.toList ++
        ("' for insert operation").toList)

/-- `applyDelete` (src/main.go): handles delete operations. -/
def applyDelete (lines : List Str) (op : EditOperation) :
    Except Str (List Str) :=
  match op.location.lineRange with
  | some r =>
    if r.start < 1 ∨ r.«end» < 1 ∨ r.start > (lines.length : Int) ∨
        r.«end» > (lines.length : Int) ∨ r.start > r.«end» then
      .error (("invalid line range ").toList ++ intStr r.start ++
        ("-").toList ++ intStr r.«end» ++ (" for file with ").toList ++
        natStr lines.length ++ (" lines").toList)
    else
      .ok (lines.take (r.start - 1).toNat ++ lines.drop r.«end».toNat)
  | none =>
    match op.location.lineNumber with
    | some lineNum =>
      if lineNum < 1 ∨ lineNum > (lines.length : Int) then
        .error (("line number ").toList ++ intStr lineNum ++
          (" is out of range (1-").toList ++ natStr lines.length ++
          (")").toList)
      else
        .ok (lines.take (lineNum - 1).toNat ++ lines.drop lineNum.toNat)
    | none =>
      .error ("line_number or line_range is required for delete operation").toList

/-- `applyReplace` (src/main.go): handles replace operations. -/
def applyReplace (lines : List Str) (op : EditOperation) :
    Except Str (List Str) :=
  let replacementLines := splitNl op.content
  match op.location.lineRange with
  | some r =>
    if r.start < 1 ∨ r.«end» < 1 ∨ r.start > (lines.length : Int) ∨
        r.«end» > (lines.length : Int) ∨ r.start > r.«end» then
      .error (("invalid line range ").toList ++ intStr r.start ++
        ("-").toList ++ intStr r.«end» ++ (" for file with ").toList ++
        natStr lines.length ++ (" lines").toList)
    else
      .ok (lines.take (r.start - 1).toNat ++ replacementLines ++
        lines.drop r.«end».toNat)
  | none =>
    match op.location.lineNumber with
    | some lineNum =>
      if lineNum < 1 ∨ lineNum > (lines.length : Int) then
        .error (("line number ").toList ++ intStr lineNum ++
          (" is out of range (1-").toList ++ natStr lines.length ++
          (")").toList)
      else
        .ok (lines.take (lineNum - 1).toNat ++ replacementLines ++
          lines.drop lineNum.toNat)
    | none =>
      .error ("line_number or line_range is required for replace operation").toList

/-- `applyAppend` (src/main.go): handles append operations. -/
def applyAppend (lines : List Str) (op : EditOperation) :
    Except Str (List Str) :=
  .ok (lines ++ splitNl op.content)

/-- `applyOperation` (src/main.go): dispatch on the operation type. -/
def applyOperation (lines : List Str) (op : EditOperation) :
    Except Str (List Str) :=
  match op.type with
  | "insert" => applyInsert lines op
  | "delete" => applyDelete lines op
  | "replace" => applyReplace lines op
  | "append" => applyAppend lines op
  | t => .error (("unknown operation type: ").toList ++ t.toList)

/-- The `for i, op := range` loop of `EditFile` (src/main.go): fold the
operations left to right starting at 1-based index `i`, wrapping the first
failure as `failed to apply operation %d (%s): %w`. -/
def applyOperationsFrom (lines : List Str) (i : Nat) :
    List EditOperation → Except Str (List Str)
  | [] => .ok lines
  | op :: rest =>
    match applyOperation lines op with
    | .ok newLines => applyOperationsFrom newLines (i + 1) rest
    | .error e =>
      .error (("failed to apply operation ").toList ++ natStr i ++
        (" (").toList ++ op.type.toList ++ ("): ").toList ++ e)

/-- The whole operation loop of `EditFile`, indices starting at 1. -/
def applyOperations (lines : List Str) (ops : List EditOperation) :
    Except Str (List Str) :=
  applyOperationsFrom lines 1 ops

/-- The loader inside `EditFile` (src/main.go): split the raw content on
newlines and remove the last piece if it is empty (file ends with newline). -/
def loadLines (content : Str) : List Str :=
  let lines := splitNl content
  match lines.getLast? with
  | some last => if last = [] then lines.dropLast else lines
  | none => lines

/-- Reading the document at the resolved path: an absent file yields the
empty line sequence (`var lines []string` is left nil). -/
def readDocument (disk : Option Str) : List Str :=
  match disk with
  | none => []
  | some content => loadLines content

/-- The writer inside `EditFile` (src/main.go): join with newlines and add a
final newline when the sequence is non-empty. -/
def serializeLines (lines : List Str) : Str :=
  let newContent := joinNl lines
  if lines.length > 0 then newContent ++ ['\n'] else newContent

/-- `EditFile` (src/main.go), restricted to the mutation engine: validate the
batch, load, fold, and serialize.  Returns the bytes that would be written on
success, or the error message. -/
def editFile (disk : Option Str) (ops : List EditOperation) :
    Except Str Str :=
  if ops.length = 0 then .error ("at least one operation is required").toList
  else
    match applyOperations (readDocument disk) ops with
    | .error e => .error e
    | .ok lines => .ok (serializeLines lines)

/-- The on-disk state after a call to `EditFile`: `os.WriteFile` runs only on
the success path, every other return leaves the file as it was. -/
def editFileDisk (disk : Option Str) (ops : List EditOperation) : Option Str :=
  match editFile disk ops with
  | .ok newContent => some newContent
  | .error _ => disk

theorem splitNl_ne_nil (s : Str) : splitNl s ≠ [] := by
  induction s with
  | nil => simp [splitNl]
  | cons c rest ih =>
    simp only [splitNl]
    rcases hsp : splitNl rest with _ | ⟨hd, tl⟩
    · exact absurd hsp ih
    · by_cases hc : c = '\n' <;> simp [hc]

theorem joinNl_splitNl (s : Str) : joinNl (splitNl s) = s := by
  induction s with
  | nil => rfl
  | cons c rest ih =>
    rcases hsp : splitNl rest with _ | ⟨hd, tl⟩
    · exact absurd hsp (splitNl_ne_nil rest)
    · rw [hsp] at ih
      simp only [splitNl, hsp]
      by_cases hc : c = '\n'
      · subst hc
        simp only [if_pos rfl, joinNl]
        rcases tl with _ | ⟨t, ts⟩ <;> simp_all [joinNl]
      · rw [if_neg hc]
        rcases tl with _ | ⟨t, ts⟩ <;> simp_all [joinNl]

theorem splitNl_concat_nl (s : Str) : splitNl (s ++ ['\n']) = splitNl s ++ [[]] := by
  induction s with
  | nil => rfl
  | cons c rest ih =>
    rcases hsp : splitNl rest with _ | ⟨hd, tl⟩
    · exact absurd hsp (splitNl_ne_nil rest)
    · rw [hsp] at ih
      simp only [List.cons_append, splitNl, List.append_eq]
      rw [ih, hsp]
      by_cases hc : c = '\n' <;> simp [hc]

theorem applyInsert_at_eq (lines : List Str) (L : Int) (content : Str) :
    applyInsert lines ⟨"insert", ⟨some L, none, none, "at"⟩, content⟩ =
      if L < 1 then .error (("line number must be >= 1").toList)
      else if L > (lines.length : Int) + 1 then
        .error (("line number ").toList ++ intStr L ++
          (" is beyond end of file (").toList ++ natStr lines.length ++
          (" lines)").toList)
      else
        .ok (lines.take (L - 1).toNat ++ splitNl content ++
          lines.drop (L - 1).toNat) := rfl

theorem applyInsert_before_eq (lines : List Str) (ty : String) (L : Int)
    (lr : Option LineRange) (pat : Option Str) (content : Str) :
    applyInsert lines ⟨ty, ⟨some L, lr, pat, "before"⟩, content⟩ =
      if L < 1 ∨ L > (lines.length : Int) then
        .error (("line number ").toList ++ intStr L ++
          (" is out of range (1-").toList ++ natStr lines.length ++
          (")").toList)
      else
        .ok (lines.take (L - 1).toNat ++ splitNl content ++
          lines.drop (L - 1).toNat) := rfl

theorem applyInsert_after_eq (lines : List Str) (ty : String) (L : Int)
    (lr : Option LineRange) (pat : Option Str) (content : Str) :
    applyInsert lines ⟨ty, ⟨some L, lr, pat, "after"⟩, content⟩ =
      if L < 1 ∨ L > (lines.length : Int) then
        .error (("line number ").toList ++ intStr L ++
          (" is out of range (1-").toList ++ natStr lines.length ++
          (")").toList)
      else
        .ok (lines.take ((L - 1).toNat + 1) ++ splitNl content ++
          lines.drop ((L - 1).toNat + 1)) := rfl

theorem applyDelete_single_eq (lines : List Str) (ty : String) (L : Int)
    (pat : Option Str) (pos : String) (content : Str) :
    applyDelete lines ⟨ty, ⟨some L, none, pat, pos⟩, content⟩ =
      if L < 1 ∨ L > (lines.length : Int) then
        .error (("line number ").toList ++ intStr L ++
          (" is out of range (1-").toList ++ natStr lines.length ++
          (")").toList)
      else
        .ok (lines.take (L - 1).toNat ++ lines.drop L.toNat) := rfl

theorem applyDelete_range_eq (lines : List Str) (ty : String)
    (ln : Option Int) (s e : Int) (pat : Option Str) (pos : String)
    (content : Str) :
    applyDelete lines ⟨ty, ⟨ln, some ⟨s, e⟩, pat, pos⟩, content⟩ =
      if s < 1 ∨ e < 1 ∨ s > (lines.length : Int) ∨
          e > (lines.length : Int) ∨ s > e then
        .error (("invalid line range ").toList ++ intStr s ++ ("-").toList ++
          intStr e ++ (" for file with ").toList ++ natStr lines.length ++
          (" lines").toList)
      else
        .ok (lines.take (s - 1).toNat ++ lines.drop e.toNat) := rfl

theorem applyReplace_single_eq (lines : List Str) (ty : String) (L : Int)
    (pat : Option Str) (pos : String) (content : Str) :
    applyReplace lines ⟨ty, ⟨some L, none, pat, pos⟩, content⟩ =
      if L < 1 ∨ L > (lines.length : Int) then
        .error (("line number ").toList ++ intStr L ++
          (" is out of range (1-").toList ++ natStr lines.length ++
          (")").toList)
      else
        .ok (lines.take (L - 1).toNat ++ splitNl content ++
          lines.drop L.toNat) := rfl

theorem applyReplace_range_eq (lines : List Str) (ty : String)
    (ln : Option Int) (s e : Int) (pat : Option Str) (pos : String)
    (content : Str) :
    applyReplace lines ⟨ty, ⟨ln, some ⟨s, e⟩, pat, pos⟩, content⟩ =
      if s < 1 ∨ e < 1 ∨ s > (lines.length : Int) ∨
          e > (lines.length : Int) ∨ s > e then
        .error (("invalid line range ").toList ++ intStr s ++ ("-").toList ++
          intStr e ++ (" for file with ").toList ++ natStr lines.length ++
          (" lines").toList)
      else
        .ok (lines.take (s - 1).toNat ++ splitNl content ++
          lines.drop e.toNat) := rfl

theorem serializeLines_eq_flatten (lines : List Str) :
    serializeLines lines = (lines.map (fun l => l ++ ['\n'])).flatten := by
  induction lines with
  | nil => rfl
  | cons l ls ih =>
    rcases ls with _ | ⟨l2, ls2⟩
    · simp [serializeLines, joinNl]
    · simp only [serializeLines, joinNl, List.length_cons, List.map_cons,
        List.flatten_cons] at ih ⊢
      rw [if_pos (by omega)] at ih
      rw [if_pos (by omega), ← ih]
      simp

/-- C1: if any operation of the batch fails during the left-to-right fold,
`EditFile` returns an error and the on-disk document is unchanged, even when
earlier operations in the batch succeeded in memory. -/
theorem c1_failed_fold_writes_nothing (disk : Option Str)
    (ops : List EditOperation) (e : Str)
    (h : applyOperations (readDocument disk) ops = .error e) :
    (∃ msg, editFile disk ops = .error msg) ∧ editFileDisk disk ops = disk := by
  by_cases h0 : ops.length = 0
  · exact ⟨⟨("at least one operation is required").toList,
      by simp [editFile, h0]⟩, by simp [editFileDisk, editFile, h0]⟩
  · exact ⟨⟨e, by simp [editFile, h0, h]⟩,
      by simp [editFileDisk, editFile, h0, h]⟩

/-- Witness for C1: the spec's batch `[insert@1, delete@5]` on the three-line
document `A\nB\nC\n` fails on the delete step and the disk bytes are
unchanged. -/
theorem c1_witness :
    applyOperations (readDocument (some ['A', '\n', 'B', '\n', 'C', '\n']))
        [⟨"insert", ⟨some 1, none, none, "at"⟩, ['X']⟩,
         ⟨"delete", ⟨some 5, none, none, ""⟩, []⟩] =
      .error (("failed to apply operation 2 (delete): line number 5 is out of range (1-4)").toList) ∧
    editFileDisk (some ['A', '\n', 'B', '\n', 'C', '\n'])
        [⟨"insert", ⟨some 1, none, none, "at"⟩, ['X']⟩,
         ⟨"delete", ⟨some 5, none, none, ""⟩, []⟩] =
      some ['A', '\n', 'B', '\n', 'C', '\n'] :=
  ⟨rfl, (c1_failed_fold_writes_nothing (some ['A', '\n', 'B', '\n', 'C', '\n'])
    [⟨"insert", ⟨some 1, none, none, "at"⟩, ['X']⟩,
     ⟨"delete", ⟨some 5, none, none, ""⟩, []⟩]
    (("failed to apply operation 2 (delete): line number 5 is out of range (1-4)").toList)
    rfl).2⟩

/-- C2 fails as stated: loading the file content `a` (no trailing newline)
and serializing it back yields `a\n`, not the original bytes. -/
theorem c2_counterexample :
    serializeLines (readDocument (some ['a'])) = ['a', '\n'] ∧
    (['a', '\n'] : Str) ≠ ['a'] := ⟨rfl, by decide⟩

/-- C2 amended: serializing the loaded line sequence restores the original
bytes whenever the file is empty or ends with a line terminator. -/
theorem c2_write_read_round_trip (content : Str)
    (h : content = [] ∨ ∃ s, content = s ++ ['\n']) :
    serializeLines (readDocument (some content)) = content := by
  rcases h with rfl | ⟨s, rfl⟩
  · rfl
  · show serializeLines (loadLines (s ++ ['\n'])) = s ++ ['\n']
    have hlen : 0 < (splitNl s).length :=
      List.length_pos.mpr (splitNl_ne_nil s)
    simp [loadLines, splitNl_concat_nl, serializeLines, hlen, joinNl_splitNl]

/-- Witness for C2 amended: the file `a\n` round-trips unchanged. -/
theorem c2_witness :
    serializeLines (readDocument (some ['a', '\n'])) = ['a', '\n'] :=
  c2_write_read_round_trip ['a', '\n'] (Or.inr ⟨['a'], rfl⟩)

/-- C6: the serialized output is the final lines joined with one terminator
between entries plus exactly one trailing terminator when non-empty
(equivalently, each line followed by one terminator), and zero bytes when
empty; appending `hello` to an empty document yields the one-line document
`[hello]` serialized as `hello` plus one terminator. -/
theorem c6_serialization (lines : List Str) :
    serializeLines lines = (lines.map (fun l => l ++ ['\n'])).flatten ∧
    serializeLines [] = [] ∧
    (lines ≠ [] → serializeLines lines = joinNl lines ++ ['\n']) ∧
    applyAppend [] ⟨"append", ⟨none, none, none, ""⟩, ['h', 'e', 'l', 'l', 'o']⟩ =
      .ok [['h', 'e', 'l', 'l', 'o']] ∧
    editFile none [⟨"append", ⟨none, none, none, ""⟩, ['h', 'e', 'l', 'l', 'o']⟩] =
      .ok ['h', 'e', 'l', 'l', 'o', '\n'] := by
  refine ⟨serializeLines_eq_flatten lines, rfl, fun h => ?_, rfl, rfl⟩
  simp [serializeLines, if_pos (List.length_pos.mpr h)]

/-- Witness for C6: a concrete non-empty line sequence gets exactly one
trailing terminator. -/
theorem c6_witness :
    serializeLines [['a'], ['b']] = joinNl [['a'], ['b']] ++ ['\n'] :=
  (c6_serialization [['a'], ['b']]).2.2.1 (by decide)

/-- C3: insert at position `at` with line number `L` splices the split
content lines in starting at position `L` (prior content at `L` and beyond
pushed downward) when `1 ≤ L ≤ len+1`, and fails otherwise; on `[A,B,C]`
with content `X`, `L = 4` appends and `L = 5` is rejected. -/
theorem c3_insert_at (lines : List Str) (content : Str) (L : Int) :
    (1 ≤ L ∧ L ≤ (lines.length : Int) + 1 →
      applyInsert lines ⟨"insert", ⟨some L, none, none, "at"⟩, content⟩ =
        .ok (lines.take (L - 1).toNat ++ splitNl content ++
          lines.drop (L - 1).toNat)) ∧
    (L < 1 ∨ (lines.length : Int) + 1 < L →
      ∃ e, applyInsert lines ⟨"insert", ⟨some L, none, none, "at"⟩, content⟩ =
        .error e) ∧
    applyInsert [['A'], ['B'], ['C']] ⟨"insert", ⟨some 4, none, none, "at"⟩, ['X']⟩ =
      .ok [['A'], ['B'], ['C'], ['X']] ∧
    (∃ e, applyInsert [['A'], ['B'], ['C']]
      ⟨"insert", ⟨some 5, none, none, "at"⟩, ['X']⟩ = .error e) := by
  refine ⟨?_, ?_, rfl, ⟨_, rfl⟩⟩
  · rintro ⟨h1, h2⟩
    rw [applyInsert_at_eq, if_neg (by omega), if_neg (by omega)]
  · intro h
    rw [applyInsert_at_eq]
    rcases h with h | h
    · rw [if_pos h]
      exact ⟨_, rfl⟩
    · rw [if_neg (by omega), if_pos (by omega)]
      exact ⟨_, rfl⟩

/-- Witness for C3: inserting `X` at line 1 of the one-line document `[A]`
puts the new line first. -/
theorem c3_witness :
    applyInsert [['A']] ⟨"insert", ⟨some 1, none, none, "at"⟩, ['X']⟩ =
      .ok [['X'], ['A']] :=
  (c3_insert_at [['A']] ['X'] 1).1 (by constructor <;> decide)

/-- C4: replace on an in-bounds single line or in-bounds inclusive range
removes the addressed lines and splices the content's split lines in their
place, so length changes by (content lines) minus (lines replaced);
replacing line 2 of `[A,B,C]` with `X\nY` gives `[A,X,Y,C]`. -/
theorem c4_replace_splice (lines : List Str) (content : Str) :
    (∀ L : Int, ∀ pat : Option Str, ∀ pos : String, 1 ≤ L → L ≤ (lines.length : Int) →
      applyReplace lines ⟨"replace", ⟨some L, none, pat, pos⟩, content⟩ =
        .ok (lines.take (L - 1).toNat ++ splitNl content ++
          lines.drop L.toNat) ∧
      (lines.take (L - 1).toNat ++ splitNl content ++
          lines.drop L.toNat).length + 1 =
        lines.length + (splitNl content).length) ∧
    (∀ s e : Int, ∀ pat : Option Str, ∀ pos : String,
      1 ≤ s → s ≤ e → e ≤ (lines.length : Int) →
      applyReplace lines ⟨"replace", ⟨none, some ⟨s, e⟩, pat, pos⟩, content⟩ =
        .ok (lines.take (s - 1).toNat ++ splitNl content ++
          lines.drop e.toNat) ∧
      (lines.take (s - 1).toNat ++ splitNl content ++
          lines.drop e.toNat).length + (e.toNat - s.toNat + 1) =
        lines.length + (splitNl content).length) ∧
    applyReplace [['A'], ['B'], ['C']]
      ⟨"replace", ⟨some 2, none, none, ""⟩, ['X', '\n', 'Y']⟩ =
      .ok [['A'], ['X'], ['Y'], ['C']] := by
  refine ⟨?_, ?_, rfl⟩
  · intro L pat pos h1 h2
    refine ⟨by rw [applyReplace_single_eq, if_neg (by omega)], ?_⟩
    simp only [List.length_append, List.length_take, List.length_drop]
    omega
  · intro s e pat pos h1 h2 h3
    refine ⟨by rw [applyReplace_range_eq, if_neg (by omega)], ?_⟩
    simp only [List.length_append, List.length_take, List.length_drop]
    omega

/-- Witness for C4: replacing line 2 of `[A,B,C]` with the two content lines
`X`, `Y` splices them in place of `B`. -/
theorem c4_witness :
    applyReplace [['A'], ['B'], ['C']]
      ⟨"replace", ⟨some 2, none, none, ""⟩, ['X', '\n', 'Y']⟩ =
      .ok [['A'], ['X'], ['Y'], ['C']] ∧
    ([['A'], ['X'], ['Y'], ['C']] : List Str).length + 1 =
      ([['A'], ['B'], ['C']] : List Str).length +
        (splitNl ['X', '\n', 'Y']).length :=
  (c4_replace_splice [['A'], ['B'], ['C']] ['X', '\n', 'Y']).1 2 none ""
    (by decide) (by decide)

/-- C5: delete with a single line number succeeds exactly when the line is
in `[1, len]` and removes that line; delete with a range `[start, end]`
succeeds exactly when `1 ≤ start ≤ end ≤ len` and removes the inclusive
range; deleting range 2-3 from `[A,B,C,D]` yields `[A,D]`. -/
theorem c5_delete (lines : List Str) :
    (∀ L : Int, ∀ pat : Option Str, ∀ pos : String, ∀ c : Str,
      ((∃ res, applyDelete lines ⟨"delete", ⟨some L, none, pat, pos⟩, c⟩ =
          .ok res) ↔ 1 ≤ L ∧ L ≤ (lines.length : Int)) ∧
      (1 ≤ L → L ≤ (lines.length : Int) →
        applyDelete lines ⟨"delete", ⟨some L, none, pat, pos⟩, c⟩ =
          .ok (lines.take (L - 1).toNat ++ lines.drop L.toNat) ∧
        (lines.take (L - 1).toNat ++ lines.drop L.toNat).length + 1 =
          lines.length)) ∧
    (∀ s e : Int, ∀ ln : Option Int, ∀ pat : Option Str, ∀ pos : String, ∀ c : Str,
      ((∃ res, applyDelete lines ⟨"delete", ⟨ln, some ⟨s, e⟩, pat, pos⟩, c⟩ =
          .ok res) ↔ 1 ≤ s ∧ s ≤ e ∧ e ≤ (lines.length : Int)) ∧
      (1 ≤ s → s ≤ e → e ≤ (lines.length : Int) →
        applyDelete lines ⟨"delete", ⟨ln, some ⟨s, e⟩, pat, pos⟩, c⟩ =
          .ok (lines.take (s - 1).toNat ++ lines.drop e.toNat) ∧
        (lines.take (s - 1).toNat ++ lines.drop e.toNat).length +
            (e.toNat - s.toNat + 1) = lines.length)) ∧
    applyDelete [['A'], ['B'], ['C'], ['D']]
      ⟨"delete", ⟨none, some ⟨2, 3⟩, none, ""⟩, []⟩ = .ok [['A'], ['D']] := by
  refine ⟨?_, ?_, rfl⟩
  · intro L pat pos c
    constructor
    · constructor
      · rintro ⟨res, hres⟩
        rw [applyDelete_single_eq] at hres
        by_cases hc : L < 1 ∨ L > (lines.length : Int)
        · rw [if_pos hc] at hres
          cases hres
        · push_neg at hc
          omega
      · rintro ⟨h1, h2⟩
        rw [applyDelete_single_eq, if_neg (by omega)]
        exact ⟨_, rfl⟩
    · intro h1 h2
      refine ⟨by rw [applyDelete_single_eq, if_neg (by omega)], ?_⟩
      simp only [List.length_append, List.length_take, List.length_drop]
      omega
  · intro s e ln pat pos c
    constructor
    · constructor
      · rintro ⟨res, hres⟩
        rw [applyDelete_range_eq] at hres
        by_cases hc : s < 1 ∨ e < 1 ∨ s > (lines.length : Int) ∨
            e > (lines.length : Int) ∨ s > e
        · rw [if_pos hc] at hres
          cases hres
        · push_neg at hc
          omega
      · rintro ⟨h1, h2, h3⟩
        rw [applyDelete_range_eq, if_neg (by omega)]
        exact ⟨_, rfl⟩
    · intro h1 h2 h3
      refine ⟨by rw [applyDelete_range_eq, if_neg (by omega)], ?_⟩
      simp only [List.length_append, List.length_take, List.length_drop]
      omega

/-- Witness for C5: deleting the range 2-3 from `[A,B,C,D]` removes lines 2
and 3, shortening the document by two lines. -/
theorem c5_witness :
    applyDelete [['A'], ['B'], ['C'], ['D']]
      ⟨"delete", ⟨none, some ⟨2, 3⟩, none, ""⟩, []⟩ = .ok [['A'], ['D']] ∧
    ([['A'], ['D']] : List Str).length + (3 - 2 + 1) =
      ([['A'], ['B'], ['C'], ['D']] : List Str).length :=
  ((c5_delete [['A'], ['B'], ['C'], ['D']]).2.1 2 3 none none "" []).2
    (by decide) (by decide) (by decide)

/-- C7 fails as stated: insert at position `at` with line number 0 on a
three-line document is rejected with `line number must be >= 1`, wrapped
with the operation index and type, but the message names neither the
requested index 0 nor the document's line count 3. -/
theorem c7_counterexample :
    applyOperations [['A'], ['B'], ['C']]
        [⟨"insert", ⟨some 0, none, none, "at"⟩, ['X']⟩] =
      .error (("failed to apply operation 1 (insert): line number must be >= 1").toList) ∧
    ¬ (intStr 0 <:+:
        ("failed to apply operation 1 (insert): line number must be >= 1").toList ∧
       natStr 3 <:+:
        ("failed to apply operation 1 (insert): line number must be >= 1").toList) :=
  ⟨rfl, by decide⟩

/-- C7 amended: the out-of-range error branches of insert (`at` beyond end
of file, `before`/`after`), delete and replace name the requested 1-based
line index(es) and the document's current line count, and the fold wrapper
adds the 1-based operation index and the operation type; but insert at
position `at` with a line number below 1 reports only
`line number must be >= 1`, naming neither the requested index nor the
line count. -/
theorem c7_error_reporting (lines : List Str) (content c : Str) (L s e : Int) :
    ((lines.length : Int) + 1 < L →
      ∃ msg, applyInsert lines ⟨"insert", ⟨some L, none, none, "at"⟩, content⟩ =
          .error msg ∧ intStr L <:+: msg ∧ natStr lines.length <:+: msg) ∧
    (∀ pos : String, pos = "before" ∨ pos = "after" →
      L < 1 ∨ L > (lines.length : Int) →
      ∃ msg, applyInsert lines ⟨"insert", ⟨some L, none, none, pos⟩, content⟩ =
          .error msg ∧ intStr L <:+: msg ∧ natStr lines.length <:+: msg) ∧
    (L < 1 ∨ L > (lines.length : Int) →
      ∃ msg, applyDelete lines ⟨"delete", ⟨some L, none, none, ""⟩, c⟩ =
          .error msg ∧
        applyReplace lines ⟨"replace", ⟨some L, none, none, ""⟩, content⟩ =
          .error msg ∧ intStr L <:+: msg ∧ natStr lines.length <:+: msg) ∧
    (s < 1 ∨ e < 1 ∨ s > (lines.length : Int) ∨ e > (lines.length : Int) ∨
        s > e →
      ∃ msg, applyDelete lines ⟨"delete", ⟨none, some ⟨s, e⟩, none, ""⟩, c⟩ =
          .error msg ∧
        applyReplace lines ⟨"replace", ⟨none, some ⟨s, e⟩, none, ""⟩, content⟩ =
          .error msg ∧ intStr s <:+: msg ∧ intStr e <:+: msg ∧
        natStr lines.length <:+: msg) ∧
    (∀ (i : Nat) (op : EditOperation) (rest : List EditOperation) (e' : Str),
      applyOperation lines op = .error e' →
      applyOperationsFrom lines i (op :: rest) =
        .error (("failed to apply operation ").toList ++ natStr i ++
          (" (").toList ++ op.type.toList ++ ("): ").toList ++ e') ∧
      natStr i <:+: (("failed to apply operation ").toList ++ natStr i ++
          (" (").toList ++ op.type.toList ++ ("): ").toList ++ e') ∧
      op.type.toList <:+: (("failed to apply operation ").toList ++ natStr i ++
          (" (").toList ++ op.type.toList ++ ("): ").toList ++ e') ∧
      e' <:+: (("failed to apply operation ").toList ++ natStr i ++
          (" (").toList ++ op.type.toList ++ ("): ").toList ++ e')) ∧
    (L < 1 →
      applyInsert lines ⟨"insert", ⟨some L, none, none, "at"⟩, content⟩ =
        .error (("line number must be >= 1").toList)) := by
  refine ⟨?_, ?_, ?_, ?_, ?_, ?_⟩
  · intro h
    rw [applyInsert_at_eq, if_neg (by omega), if_pos (by omega)]
    refine ⟨_, rfl, ?_, ?_⟩
    · exact ⟨("line number ").toList,
        (" is beyond end of file (").toList ++ natStr lines.length ++
          (" lines)").toList, by simp⟩
    · exact ⟨("line number ").toList ++ intStr L ++
        (" is beyond end of file (").toList, (" lines)").toList, by simp⟩
  · rintro pos (rfl | rfl) h
    · rw [applyInsert_before_eq, if_pos h]
      refine ⟨_, rfl, ?_, ?_⟩
      · exact ⟨("line number ").toList,
          (" is out of range (1-").toList ++ natStr lines.length ++
            (")").toList, by simp⟩
      · exact ⟨("line number ").toList ++ intStr L ++
          (" is out of range (1-").toList, (")").toList, by simp⟩
    · rw [applyInsert_after_eq, if_pos h]
      refine ⟨_, rfl, ?_, ?_⟩
      · exact ⟨("line number ").toList,
          (" is out of range (1-").toList ++ natStr lines.length ++
            (")").toList, by simp⟩
      · exact ⟨("line number ").toList ++ intStr L ++
          (" is out of range (1-").toList, (")").toList, by simp⟩
  · intro h
    rw [applyDelete_single_eq, applyReplace_single_eq, if_pos h, if_pos h]
    refine ⟨_, rfl, rfl, ?_, ?_⟩
    · exact ⟨("line number ").toList,
        (" is out of range (1-").toList ++ natStr lines.length ++
          (")").toList, by simp⟩
    · exact ⟨("line number ").toList ++ intStr L ++
        (" is out of range (1-").toList, (")").toList, by simp⟩
  · intro h
    rw [applyDelete_range_eq, applyReplace_range_eq, if_pos h, if_pos h]
    refine ⟨_, rfl, rfl, ?_, ?_, ?_⟩
    · exact ⟨("invalid line range ").toList,
        ("-").toList ++ intStr e ++ (" for file with ").toList ++
          natStr lines.length ++ (" lines").toList, by simp⟩
    · exact ⟨("invalid line range ").toList ++ intStr s ++ ("-").toList,
        (" for file with ").toList ++ natStr lines.length ++
          (" lines").toList, by simp⟩
    · exact ⟨("invalid line range ").toList ++ intStr s ++ ("-").toList ++
        intStr e ++ (" for file with ").toList, (" lines").toList, by simp⟩
  · intro i op rest e' h
    refine ⟨by simp [applyOperationsFrom, h], ?_, ?_, ?_⟩
    · exact ⟨("failed to apply operation ").toList,
        (" (").toList ++ op.type.toList ++ ("): ").toList ++ e', by simp⟩
    · exact ⟨("failed to apply operation ").toList ++ natStr i ++
        (" (").toList, ("): ").toList ++ e', by simp⟩
    · exact ⟨("failed to apply operation ").toList ++ natStr i ++
        (" (").toList ++ op.type.toList ++ ("): ").toList, [], by simp⟩
  · intro h
    rw [applyInsert_at_eq, if_pos h]

/-- Witness for C7 amended: deleting line 9 of a three-line document yields
an error that names both the requested line 9 and the line count 3. -/
theorem c7_witness :
    ∃ msg, applyDelete [['A'], ['B'], ['C']]
        ⟨"delete", ⟨some 9, none, none, ""⟩, []⟩ = .error msg ∧
      applyReplace [['A'], ['B'], ['C']]
        ⟨"replace", ⟨some 9, none, none, ""⟩, ['X']⟩ = .error msg ∧
      intStr 9 <:+: msg ∧ natStr 3 <:+: msg :=
  (c7_error_reporting [['A'], ['B'], ['C']] ['X'] [] 9 1 1).2.2.1
    (by decide)

/-- C8: no handler consults the `pattern` field; a location populating only
a pattern makes delete and replace fail with the missing-location error and
makes insert at `at`/`before`/`after` fail with the missing line_number
error, exactly as if the pattern were absent. -/
theorem c8_pattern_never_consulted :
    (∀ (lines : List Str) (op : EditOperation),
      applyOperation lines op =
        applyOperation lines ⟨op.type, ⟨op.location.lineNumber,
          op.location.lineRange, none, op.location.position⟩, op.content⟩) ∧
    (∀ (lines : List Str) (p c : Str) (pos : String),
      applyDelete lines ⟨"delete", ⟨none, none, some p, pos⟩, c⟩ =
        .error ("line_number or line_range is required for delete operation").toList) ∧
    (∀ (lines : List Str) (p c : Str) (pos : String),
      applyReplace lines ⟨"replace", ⟨none, none, some p, pos⟩, c⟩ =
        .error ("line_number or line_range is required for replace operation").toList) ∧
    (∀ (lines : List Str) (p c : Str),
      applyInsert lines ⟨"insert", ⟨none, none, some p, "at"⟩, c⟩ =
        .error ("line_number is required for 'at' position with insert").toList) ∧
    (∀ (lines : List Str) (p c : Str),
      applyInsert lines ⟨"insert", ⟨none, none, some p, "before"⟩, c⟩ =
        .error (("line_number is required for '").toList ++
          ("before").toList ++ ("' position with insert").toList)) ∧
    (∀ (lines : List Str) (p c : Str),
      applyInsert lines ⟨"insert", ⟨none, none, some p, "after"⟩, c⟩ =
        .error (("line_number is required for '").toList ++
          ("after").toList ++ ("' position with insert").toList)) := by
  refine ⟨?_, fun _ _ _ _ => rfl, fun _ _ _ _ => rfl, fun _ _ _ => rfl,
    fun _ _ _ => rfl, fun _ _ _ => rfl⟩
  intro lines op
  obtain ⟨t, ⟨ln, lr, pat, pos⟩, c⟩ := op
  rfl

/-- C9: when a delete or replace location populates both a line range and a
line number, the handler uses the line range and the line number has no
effect on the result. -/
theorem c9_line_range_precedence :
    (∀ (lines : List Str) (ln : Int) (r : LineRange) (pat : Option Str)
        (pos : String) (c : Str),
      applyDelete lines ⟨"delete", ⟨some ln, some r, pat, pos⟩, c⟩ =
        applyDelete lines ⟨"delete", ⟨none, some r, pat, pos⟩, c⟩) ∧
    (∀ (lines : List Str) (ln ln' : Int) (r : LineRange) (pat : Option Str)
        (pos : String) (c : Str),
      applyDelete lines ⟨"delete", ⟨some ln, some r, pat, pos⟩, c⟩ =
        applyDelete lines ⟨"delete", ⟨some ln', some r, pat, pos⟩, c⟩) ∧
    (∀ (lines : List Str) (ln : Int) (r : LineRange) (pat : Option Str)
        (pos : String) (c : Str),
      applyReplace lines ⟨"replace", ⟨some ln, some r, pat, pos⟩, c⟩ =
        applyReplace lines ⟨"replace", ⟨none, some r, pat, pos⟩, c⟩) ∧
    (∀ (lines : List Str) (ln ln' : Int) (r : LineRange) (pat : Option Str)
        (pos : String) (c : Str),
      applyReplace lines ⟨"replace", ⟨some ln, some r, pat, pos⟩, c⟩ =
        applyReplace lines ⟨"replace", ⟨some ln', some r, pat, pos⟩, c⟩) :=
  ⟨fun _ _ _ _ _ _ => rfl, fun _ _ _ _ _ _ _ => rfl,
   fun _ _ _ _ _ _ => rfl, fun _ _ _ _ _ _ _ => rfl⟩

/-- C10: empty content always splits into exactly one empty line: append
with empty content grows the document by one empty line, replacing an
in-bounds line with empty content keeps the length and leaves an empty line
at that position, and insert at an in-bounds position with empty content
grows the document by one empty line. -/
theorem c10_empty_content_single_empty_line (lines : List Str) (L : Int) :
    splitNl [] = [[]] ∧
    (∀ loc : LocationSpec, applyAppend lines ⟨"append", loc, []⟩ =
        .ok (lines ++ [[]]) ∧ (lines ++ [[]]).length = lines.length + 1) ∧
    (1 ≤ L → L ≤ (lines.length : Int) →
      applyReplace lines ⟨"replace", ⟨some L, none, none, ""⟩, []⟩ =
        .ok (lines.take (L - 1).toNat ++ [[]] ++ lines.drop L.toNat) ∧
      (lines.take (L - 1).toNat ++ [[]] ++ lines.drop L.toNat).length =
        lines.length ∧
      (lines.take (L - 1).toNat ++ [[]] ++
        lines.drop L.toNat)[(L - 1).toNat]? = some ([] : Str)) ∧
    (1 ≤ L → L ≤ (lines.length : Int) + 1 →
      applyInsert lines ⟨"insert", ⟨some L, none, none, "at"⟩, []⟩ =
        .ok (lines.take (L - 1).toNat ++ [[]] ++ lines.drop (L - 1).toNat) ∧
      (lines.take (L - 1).toNat ++ [[]] ++
        lines.drop (L - 1).toNat).length = lines.length + 1) := by
  refine ⟨rfl, fun loc => ⟨rfl, by simp⟩, ?_, ?_⟩
  · intro h1 h2
    refine ⟨(by rw [applyReplace_single_eq, if_neg (by omega)]; simp only [splitNl]), ?_, ?_⟩
    · simp only [List.length_append, List.length_take, List.length_drop,
        List.length_cons, List.length_nil]
      omega
    · have hk : (lines.take (L - 1).toNat).length = (L - 1).toNat := by
        rw [List.length_take]
        omega
      rw [List.append_assoc, List.getElem?_append_right hk.le, hk,
        Nat.sub_self]
      simp
  · intro h1 h2
    refine ⟨(by rw [applyInsert_at_eq, if_neg (by omega), if_neg (by omega)]; simp only [splitNl]), ?_⟩
    simp only [List.length_append, List.length_take, List.length_drop,
      List.length_cons, List.length_nil]
    omega

/-- Witness for C10: replacing line 2 of `[A,B,C]` with empty content keeps
three lines and leaves line 2 empty. -/
theorem c10_witness :
    applyReplace [['A'], ['B'], ['C']]
      ⟨"replace", ⟨some 2, none, none, ""⟩, []⟩ =
      .ok [['A'], [], ['C']] ∧
    ([['A'], [], ['C']] : List Str).length = 3 ∧
    ([['A'], [], ['C']] : List Str)[1]? = some ([] : Str) :=
  ((c10_empty_content_single_empty_line [['A'], ['B'], ['C']] 2).2.2.1
    (by decide) (by decide))
